import Mathlib

/-!
Verification of the Sophia DeFi assistant web client and its server routes.

This development shallowly embeds the TypeScript/JavaScript source of the
repository (Next.js API routes under `app/api`, the browser components
`ChatInterface`, `VoiceRecorder`, `ConsentModal`, `LiveCall`, and the legacy
static client `SophiaChat`) as executable Lean definitions, and proves the
behavioural properties stated about them.

Modelling conventions:
* JavaScript strings are Lean `String`s; absent (`undefined`) values are
  `Option`; JS truthiness of a string is "nonempty", of a boolean is the
  boolean itself, of `undefined` is false.
* JS numbers on the audio path are modelled as exact rationals `ℚ`
  (the sample rates in play divide evenly, so the index arithmetic agrees
  with exact arithmetic), and `Int16Array` stores as truncate-toward-zero
  followed by a 16-bit two's-complement wrap.
* The run-time scope of a route handler is an explicit association list of
  the local bindings the source declares; evaluating an identifier that is
  not in scope raises a `ReferenceError`, which the route's `try/catch`
  converts into an HTTP 500 response, exactly as Node does.
* `Math.random()*16|0` draws are modelled by an arbitrary stream
  `s : Nat → Nat` read modulo 16.
-/

/-! ## JavaScript-value helpers -/

/-- Truthiness of an optional JS string: `undefined` and `""` are falsy. -/
def jsTruthyStr : Option String → Bool
  | none => false
  | some s => s ≠ ""

/-- Truthiness of an optional JS boolean (`!!payload.field`). -/
def jsTruthyBool : Option Bool → Bool
  | none => false
  | some b => b

/-- `a || b` on optional JS strings: keep `a` when truthy, else `b`. -/
def jsOrStr (a : Option String) (b : String) : String :=
  match a with
  | some s => if s ≠ "" then s else b
  | none => b

/-- The regular expression test `/^https?:\/\//.test(s)`. -/
def httpUrlTest (s : String) : Bool :=
  s.startsWith "http://" || s.startsWith "https://"

/-- JavaScript `String.prototype.trim()`: strip leading and trailing
whitespace (an executable character-level definition, as the built-in
`String.trim` does not evaluate inside the kernel). -/
def jsTrim (s : String) : String :=
  ⟨(((s.toList.dropWhile Char.isWhitespace).reverse.dropWhile
      Char.isWhitespace).reverse)⟩

/-! ## SHA-256 (the `crypto.createHash('sha256')` dependency)

A byte-level implementation of FIPS 180-4 SHA-256 over `List Nat`
(each entry a byte), producing the lowercase hex digest that
`.digest('hex')` returns.  Word arithmetic is `Nat` modulo `2^32`. -/

def w32 : Nat := 4294967296

def add32 (a b : Nat) : Nat := (a + b) % w32

/-- Combine two 32-bit words bit by bit with `f` on the individual bits.
(Lean's built-in `Nat` bitwise operators are defined by well-founded
recursion and do not reduce inside the kernel, so the SHA-256 word
operations are spelled out arithmetically.) -/
def bit32Combine (f : Nat → Nat → Nat) (a b : Nat) : Nat :=
  (List.range 32).foldr (fun i acc => f ((a >>> i) % 2) ((b >>> i) % 2) + 2 * acc) 0

/-- Bitwise XOR on 32-bit words. -/
def xor32 (a b : Nat) : Nat := bit32Combine (fun x y => (x + y) % 2) a b

/-- Bitwise AND on 32-bit words. -/
def and32 (a b : Nat) : Nat := bit32Combine (fun x y => x * y) a b

/-- Bitwise complement of a 32-bit word. -/
def not32 (a : Nat) : Nat := (w32 - 1) - a % w32

/-- Right rotation of a 32-bit word.  The two shifted parts occupy
disjoint bit positions, so their OR is their sum. -/
def rotr32 (n x : Nat) : Nat := ((x >>> n) + ((x <<< (32 - n)) % w32)) % w32

def shr32 (n x : Nat) : Nat := x >>> n

def bSig0 (x : Nat) : Nat := xor32 (xor32 (rotr32 2 x) (rotr32 13 x)) (rotr32 22 x)

def bSig1 (x : Nat) : Nat := xor32 (xor32 (rotr32 6 x) (rotr32 11 x)) (rotr32 25 x)

def sSig0 (x : Nat) : Nat := xor32 (xor32 (rotr32 7 x) (rotr32 18 x)) (shr32 3 x)

def sSig1 (x : Nat) : Nat := xor32 (xor32 (rotr32 17 x) (rotr32 19 x)) (shr32 10 x)

def chF (x y z : Nat) : Nat := xor32 (and32 x y) (and32 (not32 x) z)

def majF (x y z : Nat) : Nat := xor32 (xor32 (and32 x y) (and32 x z)) (and32 y z)

def sha256K : List Nat :=
  [1116352408, 1899447441, 3049323471, 3921009573, 961987163,
   1508970993, 2453635748, 2870763221, 3624381080, 310598401,
   607225278, 1426881987, 1925078388, 2162078206, 2614888103,
   3248222580, 3835390401, 4022224774, 264347078, 604807628,
   770255983, 1249150122, 1555081692, 1996064986, 2554220882,
   2821834349, 2952996808, 3210313671, 3336571891, 3584528711,
   113926993, 338241895, 666307205, 773529912, 1294757372,
   1396182291, 1695183700, 1986661051, 2177026350, 2456956037,
   2730485921, 2820302411, 3259730800, 3345764771, 3516065817,
   3600352804, 4094571909, 275423344, 430227734, 506948616,
   659060556, 883997877, 958139571, 1322822218, 1537002063,
   1747873779, 1955562222, 2024104815, 2227730452, 2361852424,
   2428436474, 2756734187, 3204031479, 3329325298]

def sha256H0 : List Nat :=
  [1779033703, 3144134277, 1013904242, 2773480762, 1359893119,
   2600822924, 528734635, 1541459225]

/-- Message padding: append `0x80`, zero bytes to 56 mod 64, then the
64-bit big-endian bit length. -/
def sha256Pad (msg : List Nat) : List Nat :=
  let len := msg.length
  let bitLen := len * 8
  let zeroCount := (64 + 56 - (len + 1) % 64) % 64
  let lenBytes := (List.range 8).map (fun i => (bitLen >>> ((7 - i) * 8)) % 256)
  msg ++ [0x80] ++ List.replicate zeroCount 0 ++ lenBytes

/-- Split a byte list into 64-byte blocks (structural recursion on a fuel
bound so that the kernel can evaluate it). -/
def sha256BlocksGo : Nat → List Nat → List (List Nat)
  | 0, _ => []
  | _, [] => []
  | fuel + 1, l => l.take 64 :: sha256BlocksGo fuel (l.drop 64)

def sha256Blocks (l : List Nat) : List (List Nat) :=
  sha256BlocksGo l.length l

/-- Big-endian 4-byte words of one block. -/
def blockWords (b : List Nat) : List Nat :=
  (List.range 16).map (fun i =>
    ((b.getD (4 * i) 0) <<< 24) + ((b.getD (4 * i + 1) 0) <<< 16) +
    ((b.getD (4 * i + 2) 0) <<< 8) + (b.getD (4 * i + 3) 0))

/-- Extend 16 words to the 64-entry message schedule. -/
def sha256Schedule (ws : List Nat) : List Nat :=
  (List.range 48).foldl
    (fun acc _ =>
      let n := acc.length
      acc ++ [add32 (add32 (sSig1 (acc.getD (n - 2) 0)) (acc.getD (n - 7) 0))
                    (add32 (sSig0 (acc.getD (n - 15) 0)) (acc.getD (n - 16) 0))])
    ws

/-- One compression round. -/
def sha256Round (st : List Nat) (kw : Nat × Nat) : List Nat :=
  let a := st.getD 0 0
  let b := st.getD 1 0
  let c := st.getD 2 0
  let d := st.getD 3 0
  let e := st.getD 4 0
  let f := st.getD 5 0
  let g := st.getD 6 0
  let h := st.getD 7 0
  let t1 := add32 (add32 (add32 h (bSig1 e)) (add32 (chF e f g) kw.1)) kw.2
  let t2 := add32 (bSig0 a) (majF a b c)
  [add32 t1 t2, a, b, c, add32 d t1, e, f, g]

/-- Compress one block into the running hash state. -/
def sha256Compress (hs : List Nat) (block : List Nat) : List Nat :=
  let ws := sha256Schedule (blockWords block)
  let st := (sha256K.zip ws).foldl (fun st kw => sha256Round st kw) hs
  (List.range 8).map (fun i => add32 (hs.getD i 0) (st.getD i 0))

def hexDigit (n : Nat) : Char :=
  if n = 0 then '0' else if n = 1 then '1' else if n = 2 then '2'
  else if n = 3 then '3' else if n = 4 then '4' else if n = 5 then '5'
  else if n = 6 then '6' else if n = 7 then '7' else if n = 8 then '8'
  else if n = 9 then '9' else if n = 10 then 'a' else if n = 11 then 'b'
  else if n = 12 then 'c' else if n = 13 then 'd' else if n = 14 then 'e'
  else 'f'

/-- Lowercase hex of one 32-bit word. -/
def wordHex (x : Nat) : List Char :=
  (List.range 8).map (fun i => hexDigit ((x >>> ((7 - i) * 4)) % 16))

/-- `sha256hex bytes` is the lowercase hex digest of the byte list. -/
def sha256hex (msg : List Nat) : String :=
  let hs := (sha256Blocks (sha256Pad msg)).foldl sha256Compress sha256H0
  ⟨(hs.map wordHex).foldr (· ++ ·) []⟩

/-! ## UTF-8 encoding (Node hashes strings as UTF-8 bytes) -/

def utf8EncodeChar (c : Char) : List Nat :=
  let n := c.toNat
  if n < 0x80 then [n]
  else if n < 0x800 then
    [0xC0 + (n >>> 6), 0x80 + (n % 64)]
  else if n < 0x10000 then
    [0xE0 + (n >>> 12), 0x80 + ((n >>> 6) % 64), 0x80 + (n % 64)]
  else
    [0xF0 + (n >>> 18), 0x80 + ((n >>> 12) % 64),
     0x80 + ((n >>> 6) % 64), 0x80 + (n % 64)]

def utf8Encode (s : String) : List Nat :=
  s.toList.foldr (fun c acc => utf8EncodeChar c ++ acc) []

/-! ## Consent data model (§3 of the spec; table `user_consents`) -/

/-- One row of the `user_consents` table, as the accept route writes it
(the `id` / `created_at` / `updated_at` housekeeping columns are elided). -/
structure ConsentRow where
  discord_id : String
  consent_hash : String
  ip_address : String
  timestamp : Int
  deriving Repr, DecidableEq

/-- The `user_consents` table state. -/
abbrev ConsentDb := List ConsentRow

/-- The authenticated Supabase user as the routes see it: the platform
user id plus the `user_metadata` fields the identity-resolution chain
consults. -/
structure AuthUser where
  id : String
  provider_id : Option String
  sub : Option String
  provider_token : Option String
  deriving Repr, DecidableEq

/-- The parts of the incoming consent-accept request the handler reads:
the JSON body fields and the two forwarding headers. -/
structure AcceptRequest where
  userId : String
  timestamp : String
  xForwardedFor : Option String
  xRealIp : Option String
  deriving Repr, DecidableEq

/-- A JSON response from a route handler: either a success body
(`{success: true, message}`) or an error body with its HTTP status. -/
inductive RouteResponse
  | success (message : String)
  | failure (status : Nat) (error : String)
  deriving Repr, DecidableEq

/-! ## Consent-accept route (`app/api/consent/accept/route.ts`) -/

/-- Lines 70-73: `user_metadata?.provider_id || user_metadata?.sub ||
user_metadata?.provider_token || user.id`. -/
def resolveDiscordId (u : AuthUser) : String :=
  jsOrStr u.provider_id (jsOrStr u.sub (jsOrStr u.provider_token u.id))

/-- Lines 87-88: first entry of `x-forwarded-for` if that header is
truthy, else `x-real-ip || 'unknown'`. -/
def clientIp (fwd realIp : Option String) : String :=
  if jsTruthyStr fwd then ((fwd.getD "").splitOn ",").headD ""
  else jsOrStr realIp "unknown"

/-- Line 95: `` `${discordId}:${timestamp}:${ip}` ``. -/
def consentDataString (discordId timestamp ip : String) : String :=
  discordId ++ ":" ++ timestamp ++ ":" ++ ip

/-- Line 96: `createHash('sha256').update(consentData).digest('hex')`. -/
def consentHashOf (discordId timestamp ip : String) : String :=
  sha256hex (utf8Encode (consentDataString discordId timestamp ip))

/-- Line 92: `Math.floor(new Date(timestamp).getTime() / 1000)`, as a
function of the epoch-millisecond value `new Date(timestamp).getTime()`
(`Math.floor` rounds toward negative infinity). -/
def unixTimestampOf (epochMillis : Int) : Int :=
  Int.fdiv epochMillis 1000

/-- Lines 137-144: the record object passed to
`.from('user_consents').insert(...)` (housekeeping columns elided). -/
def consentInsertRow (discordId timestamp ip : String) (epochMillis : Int) : ConsentRow :=
  { discord_id := discordId
    consent_hash := consentHashOf discordId timestamp ip
    ip_address := ip
    timestamp := unixTimestampOf epochMillis }

/-- Evaluating a JavaScript identifier against the handler's local scope;
an identifier that is not bound raises a `ReferenceError`. -/
def jsLookup (scope : List (String × String)) (name : String) :
    Except String String :=
  match scope.find? (fun p => p.1 = name) with
  | some p => Except.ok p.2
  | none => Except.error ("ReferenceError: " ++ name ++ " is not defined")

/-- The string-valued local bindings the consent-accept handler has
declared by the time it reaches its existing-consent check (lines 65-111
of the source; bindings of non-string values — `cookieStore`, `supabase`,
`body`, `unixTimestamp`, `serviceSupabase` — are elided, which only
enlarges the set of identifiers treated as bound). -/
def acceptRouteScope (req : AcceptRequest) (discordId ip consentData consentHash : String) :
    List (String × String) :=
  [("userId", req.userId), ("timestamp", req.timestamp),
   ("discordId", discordId), ("ip", ip),
   ("consentData", consentData), ("consentHash", consentHash)]

set_option linter.unusedVariables false in
/-- The body of the consent-accept `POST` handler (the part inside its
`try`), returning either a response together with the new table state, or
a thrown JavaScript error.  Translated line by line from
`app/api/consent/accept/route.ts`; the environment-variable checks of
lines 11-22 are assumed satisfied, and the two 401 branches (auth error /
no user) are merged into the missing-user case. -/
def consentAcceptBody (user? : Option AuthUser) (req : AcceptRequest)
    (getTimeMs : Int) (db : ConsentDb) :
    Except String (RouteResponse × ConsentDb) :=
  match user? with
  | none => Except.ok (RouteResponse.failure 401 "Unauthorized - no user", db)
  | some user =>
    let discordId := resolveDiscordId user
    if discordId = "" then
      Except.ok (RouteResponse.failure 404 "Discord ID not found", db)
    else
      let ip := clientIp req.xForwardedFor req.xRealIp
      let unixTimestamp := unixTimestampOf getTimeMs
      let consentData := consentDataString discordId req.timestamp ip
      let consentHash := consentHashOf discordId req.timestamp ip
      let scope := acceptRouteScope req discordId ip consentData consentHash
      -- line 115: console.log(..., discordIdString) — first use of the
      -- undeclared identifier `discordIdString`
      match jsLookup scope "discordIdString" with
      | Except.error e => Except.error e
      | Except.ok _ =>
        -- lines 116-120: .eq('discord_id', discordIdString).single()
        match jsLookup scope "discordIdString" with
        | Except.error e => Except.error e
        | Except.ok queryKey =>
          match db.find? (fun r => r.discord_id = queryKey) with
          | some _ =>
            -- lines 127-133: pre-check hit
            Except.ok (RouteResponse.success "Consent already exists", db)
          | none =>
            -- lines 136-151: insert the new record
            let row : ConsentRow := consentInsertRow discordId req.timestamp ip getTimeMs
            if db.any (fun r => r.discord_id = discordId) then
              -- lines 159-166: unique-constraint violation (code 23505)
              Except.ok (RouteResponse.success "Consent already exists", db)
            else
              Except.ok (RouteResponse.success "Consent recorded successfully", db ++ [row])

/-- The consent-accept `POST` handler: its body under the `try/catch` of
lines 9 and 182-185 — a thrown error becomes a 500 response and the
table is left as it was. -/
def consentAcceptPOST (user? : Option AuthUser) (req : AcceptRequest)
    (getTimeMs : Int) (db : ConsentDb) : RouteResponse × ConsentDb :=
  match consentAcceptBody user? req getTimeMs db with
  | Except.ok r => r
  | Except.error _ => (RouteResponse.failure 500 "Internal server error", db)
/-! ## Legacy identity-provider stub
(`app/api/auth/[...nextauth]/route.ts`, current revision) -/

/-- HTTP method of a request to the stub. -/
inductive HttpMethod
  | get
  | post
  deriving Repr, DecidableEq

/-- An incoming request, reduced to what could possibly matter to the
stub: its method, path and body text (the handler reads none of them). -/
structure StubRequest where
  path : String
  body : String
  deriving Repr, DecidableEq

/-- A database write the stub could have issued (it issues none). -/
structure DbWrite where
  table : String
  payload : String
  deriving Repr, DecidableEq

/-- The stub's JSON response. -/
structure StubResponse where
  status : Nat
  message : String
  hint : String
  deriving Repr, DecidableEq

/-- The `GET` handler of the disabled NextAuth route: an unconditional
410 response; it touches neither the session nor the database, so its
outcome carries an (empty) write list. -/
def nextauthGET (_req : StubRequest) : StubResponse × List DbWrite :=
  (⟨410,
    "Legacy NextAuth route disabled. Use Supabase OAuth instead.",
    "Call supabase.auth.signInWithOAuth(\x7b provider: \"discord\", options: \x7b redirectTo: \"/auth/callback\" \x7d \x7d) and handle code exchange in /auth/callback."⟩,
   [])

/-- Line 14 of the source: `export \x7b GET as POST \x7d`. -/
def nextauthPOST : StubRequest → StubResponse × List DbWrite :=
  nextauthGET

/-- Dispatch a request of either method to the stub. -/
def nextauthHandle : HttpMethod → StubRequest → StubResponse × List DbWrite
  | HttpMethod.get => nextauthGET
  | HttpMethod.post => nextauthPOST

/-! ## Client-side session-id generation
(`generateSessionId` in `ChatInterface.tsx` and in the legacy static
client `script.js` — the two copies are textually identical). -/

/-- The literal template `'xxxxxxxx-xxxx-4xxx-yxxx-xxxxxxxxxxxx'`. -/
def uuidTemplate : List Char :=
  ['x','x','x','x','x','x','x','x','-','x','x','x','x','-','4','x','x','x',
   '-','y','x','x','x','-','x','x','x','x','x','x','x','x','x','x','x','x']

/-- `replace(/[xy]/g, c => ...)`: each `x` becomes a hex digit of a fresh
draw `r = Math.random()*16|0`, each `y` becomes the hex digit of
`r & 0x3 | 0x8`; other characters pass through.  The draw stream is an
arbitrary `s : Nat → Nat` read modulo 16, consumed left to right starting
at index `i`. -/
def uuidReplace : List Char → (Nat → Nat) → Nat → List Char
  | [], _, _ => []
  | c :: cs, s, i =>
    if c = 'x' then hexDigit (s i % 16) :: uuidReplace cs s (i + 1)
    else if c = 'y' then hexDigit (((s i % 16) % 4) + 8) :: uuidReplace cs s (i + 1)
    else c :: uuidReplace cs s i

/-- One call of `generateSessionId()` whose draws start at stream
index `i` (each call consumes 31 draws).  `r & 0x3` is `r % 4` and
`(r & 0x3) | 0x8` is `(r % 4) + 8`, the bit patterns being disjoint. -/
def generateSessionIdAt (s : Nat → Nat) (i : Nat) : List Char :=
  uuidReplace uuidTemplate s i

/-- `generateSessionId()` with a fresh stream. -/
def generateSessionId (s : Nat → Nat) : List Char :=
  generateSessionIdAt s 0

/-! ## Legacy static client (`SophiaChat` in `script.js`) -/

/-- The browser's `localStorage`, keyed by string. -/
def LocalStorage : Type := String → Option String

/-- `localStorage.setItem`. -/
def storageSet (st : LocalStorage) (key value : String) : LocalStorage :=
  fun k => if k = key then some value else st k

/-- The fields of `SophiaChat` the session/settings logic touches. -/
structure SophiaChatState where
  apiUrl : String
  apiKey : String
  sessionId : List Char
  deriving Repr, DecidableEq

/-- The `SophiaChat` constructor: `apiUrl` and `apiKey` are read from
`localStorage` (`'sophia_api_url'`, `'sophia_api_key'`) with defaults,
while `sessionId` is always `this.generateSessionId()` on a fresh draw
stream — no stored value is consulted for it. -/
def sophiaChatNew (storage : LocalStorage) (origin : String) (s : Nat → Nat) :
    SophiaChatState :=
  { apiUrl := (storage "sophia_api_url").getD origin
    apiKey := (storage "sophia_api_key").getD "dev-key"
    sessionId := generateSessionId s }

/-- `saveSettings()`: writes the API-URL input back to
`localStorage.setItem('sophia_api_url', apiUrl)` and updates the field;
nothing else is persisted. -/
def sophiaSaveSettings (st : SophiaChatState) (storage : LocalStorage)
    (apiUrlInput : String) : SophiaChatState × LocalStorage :=
  ({ st with apiUrl := apiUrlInput },
   storageSet storage "sophia_api_url" apiUrlInput)

/-! ## Next.js text-chat surface (`ChatInterface.tsx`) -/

/-- A rendered chat message (fields irrelevant to the claims elided). -/
structure ChatMsg where
  id : List Char
  isUser : Bool
  content : String
  deriving Repr, DecidableEq

/-- The component state `sendTextMessage` reads and writes: the input
box, the loading flag and the message list.  The component has no field
holding a session identifier. -/
structure ChatState where
  inputText : String
  isLoading : Bool
  messages : List ChatMsg
  deriving Repr, DecidableEq

/-- The body `sendTextMessage` POSTs to `/text-chat/stream`. -/
structure TextChatRequest where
  message : String
  session_id : List Char
  deriving Repr, DecidableEq

/-- `sendTextMessage()` up to the point the streaming response is
consumed.  It guards on an empty input or a send in flight, then calls
`generateSessionId()` three times on the shared draw stream: for the
user message id (line 42), for the request's `session_id` (line 62), and
for the initial assistant message id (line 72) — 31 draws apiece, hence
the offsets 0, 31 and 62. -/
def sendTextMessage (st : ChatState) (s : Nat → Nat) :
    Option (TextChatRequest × ChatState) :=
  if jsTrim st.inputText = "" || st.isLoading then none
  else
    let text := jsTrim st.inputText
    let userMsg : ChatMsg := ⟨generateSessionIdAt s 0, true, text⟩
    let sophiaMsg : ChatMsg := ⟨generateSessionIdAt s 62, false, ""⟩
    some ({ message := text, session_id := generateSessionIdAt s 31 },
          { inputText := "", isLoading := true,
            messages := st.messages ++ [userMsg, sophiaMsg] })
/-! ## Streamed `audio_url` event handling
(`handleEvent` in `ChatInterface.tsx` and in `VoiceRecorder.tsx`) -/

/-- The JSON payload of an `audio_url` server-sent event.  A missing
field is `none`; `sophia_emotion` is irrelevant to playback and elided. -/
structure AudioUrlPayload where
  audio_url : Option String
  mock_audio : Option Bool
  deriving Repr, DecidableEq

/-- What the text-chat `handleEvent` does with an `audio_url` event
(`ChatInterface.tsx` lines 103-110): the message is updated, and
`playAudio` is scheduled (via `setTimeout`, 300 ms) exactly when
`payload.audio_url && !mock && /^https?:\/\//.test(payload.audio_url)`. -/
def chatAudioUrlAutoplay (p : AudioUrlPayload) : Bool :=
  jsTruthyStr p.audio_url &&
    !jsTruthyBool p.mock_audio &&
    httpUrlTest (p.audio_url.getD "")

/-- The same decision in the upload-voice surface (`VoiceRecorder.tsx`
lines 193-200), written there over the local `audioUrl` variable holding
`payload.audio_url`. -/
def voiceAudioUrlAutoplay (p : AudioUrlPayload) : Bool :=
  jsTruthyStr p.audio_url &&
    !jsTruthyBool p.mock_audio &&
    httpUrlTest (p.audio_url.getD "")

/-! ## Consent modal (`ConsentModal.tsx`, `handleAccept`) -/

/-- The outcome of the `fetch('/api/consent/accept')` call as the modal
sees it: an OK response, a non-OK response, or a thrown network error. -/
inductive FetchOutcome
  | ok
  | httpError (status : Nat)
  | thrown
  deriving Repr, DecidableEq

/-- The externally visible result of one `handleAccept()` run:
whether/when `onAccept` fires (`none` = never, `some d` = after `d`
milliseconds), the error banner text, and the final submitting flag. -/
structure AcceptRun where
  onAcceptDelayMs : Option Nat
  errorMsg : String
  isSubmitting : Bool
  deriving Repr, DecidableEq

/-- `handleAccept`: bail out if there is no user (line 18); on a
response with `response.ok` call `onAccept()` immediately (lines 37-39);
on a non-OK response set the error banner and schedule `onAccept` after
3000 ms (lines 40-51); on a thrown error likewise with the network-error
banner (lines 52-61); `finally` clears the submitting flag (line 63). -/
def handleAccept (user? : Option AuthUser) (outcome : FetchOutcome) : AcceptRun :=
  match user? with
  | none => { onAcceptDelayMs := none, errorMsg := "", isSubmitting := false }
  | some _ =>
    match outcome with
    | FetchOutcome.ok =>
      { onAcceptDelayMs := some 0, errorMsg := "", isSubmitting := false }
    | FetchOutcome.httpError _ =>
      { onAcceptDelayMs := some 3000
        errorMsg := "Could not save consent record. Your session will continue, but you may be asked again."
        isSubmitting := false }
    | FetchOutcome.thrown =>
      { onAcceptDelayMs := some 3000
        errorMsg := "Network error. You can still use Sophia, but consent was not recorded."
        isSubmitting := false }

/-! ## Live-call playback queue (`LiveCall.tsx`) -/

/-- The queue/flag pair `ttsQueueRef` / `playingRef`. -/
structure PlayerState where
  queue : List String
  playing : Bool
  deriving Repr, DecidableEq

/-- Events driving the queue: a clip URL is enqueued (an
`audio_url_chunk` / assembled `audio_chunk` / `audio_url` message pushes
onto `ttsQueueRef` and calls `playNextInQueue`), or the currently playing
clip signals `onended`, `onerror`, or a rejected `play()`. -/
inductive PlayerEvent
  | enqueue (url : String)
  | ended
  | erred
  | playFailed
  deriving Repr, DecidableEq

/-- `playNextInQueue` (lines 336-354): do nothing while a clip is
playing; otherwise shift the queue head, mark the player busy and start
that clip.  The second component reports the clip started by this call,
if any. -/
def playNextInQueue (st : PlayerState) : PlayerState × Option String :=
  if st.playing then (st, none)
  else
    match st.queue with
    | [] => (st, none)
    | u :: rest => ({ queue := rest, playing := true }, some u)

/-- One event step.  Enqueueing appends at the tail and calls
`playNextInQueue`; each of the three completion handlers clears
`playingRef.current` and calls `playNextInQueue`. -/
def playerStep (st : PlayerState) : PlayerEvent → PlayerState × Option String
  | PlayerEvent.enqueue u => playNextInQueue { st with queue := st.queue ++ [u] }
  | PlayerEvent.ended => playNextInQueue { st with playing := false }
  | PlayerEvent.erred => playNextInQueue { st with playing := false }
  | PlayerEvent.playFailed => playNextInQueue { st with playing := false }

/-- Run a sequence of events, collecting the clips in the order their
playback started. -/
def playerRun (st : PlayerState) : List PlayerEvent → PlayerState × List String
  | [] => (st, [])
  | e :: es =>
    let (st', started) := playerStep st e
    let (st'', rest) := playerRun st' es
    (st'', started.toList ++ rest)

/-- The clip URLs enqueued by a sequence of events, in order. -/
def enqueuedOf (evs : List PlayerEvent) : List String :=
  evs.filterMap fun e =>
    match e with
    | PlayerEvent.enqueue u => some u
    | _ => none

/-- The initial player state: empty queue, idle. -/
def playerInit : PlayerState := { queue := [], playing := false }

/-! ## PCM downsampling (`downsampleTo16kPCM` in `LiveCall.tsx`)

Sample values are exact rationals; the index arithmetic
`Math.floor(pos * ratio)` with `ratio = inputSampleRate / 16000` is the
natural-number division `pos * rate / 16000`. -/

/-- `Math.max(-1, Math.min(1, s))`. -/
def clampUnit (s : ℚ) : ℚ := max (-1) (min 1 s)

/-- `s < 0 ? s * 0x8000 : s * 0x7fff` after clamping. -/
def scalePCM (s : ℚ) : ℚ :=
  let c := clampUnit s
  if c < 0 then c * 32768 else c * 32767

/-- The floor of a rational, computed from its reduced fraction (the
denominator is positive, so Euclidean division of `num` by `den` is the
floor); spelled out so that the kernel can evaluate it. -/
def ratFloor (q : ℚ) : ℤ := q.num / q.den

/-- The ceiling of a rational, as `-⌊-q⌋`. -/
def ratCeil (q : ℚ) : ℤ := -ratFloor (-q)

/-- Truncation toward zero (JavaScript `ToIntegerOrInfinity`). -/
def truncQ (q : ℚ) : ℤ :=
  if 0 ≤ q then ratFloor q else ratCeil q

/-- Storing a number into an `Int16Array` slot: truncate toward zero,
then wrap into 16-bit two's complement. -/
def toInt16 (q : ℚ) : ℤ :=
  (truncQ q + 32768) % 65536 - 32768

/-- Encode one (possibly averaged) sample as 16-bit PCM. -/
def encodeSample (s : ℚ) : ℤ := toInt16 (scalePCM s)

/-- `Math.floor(pos * ratio)`: the first source index of output
position `pos`. -/
def windowStart (rate pos : ℕ) : ℕ := pos * rate / 16000

/-- The source window of output position `pos`: indices from
`windowStart rate pos` up to `min (windowStart rate (pos+1)) length`
exclusive, exactly the bounds of the inner accumulation loop. -/
def sourceWindow (input : List ℚ) (rate pos : ℕ) : List ℚ :=
  (input.drop (windowStart rate pos)).take
    (min (windowStart rate (pos + 1)) input.length - windowStart rate pos)

/-- `sum / (count || 1)`. -/
def meanOrZero (w : List ℚ) : ℚ :=
  w.sum / (if w.length = 0 then 1 else (w.length : ℚ))

/-- `downsampleTo16kPCM(input, inputSampleRate)`: at 16 kHz input the
samples are PCM16-encoded one for one; otherwise
`newLength = Math.floor(length / ratio)` window means are encoded. -/
def downsampleTo16kPCM (input : List ℚ) (rate : ℕ) : List ℤ :=
  if rate = 16000 then input.map encodeSample
  else
    (List.range (input.length * 16000 / rate)).map fun pos =>
      encodeSample (meanOrZero (sourceWindow input rate pos))
/-- The claim's reading of the resampling branch, for one concrete
input: every output position has a nonempty source window and carries
the PCM16 encoding of that window's arithmetic mean. -/
def downsampleMeanClaim (input : List ℚ) (rate : ℕ) : Prop :=
  rate ≠ 16000 →
    ∀ pos, pos < input.length * 16000 / rate →
      sourceWindow input rate pos ≠ [] ∧
      (downsampleTo16kPCM input rate).get? pos =
        some (encodeSample ((sourceWindow input rate pos).sum /
          ((sourceWindow input rate pos).length : ℚ)))

/-! # Theorems -/

set_option maxRecDepth 100000 in
/-- FIPS 180-4 test vector, validating the SHA-256 embedding itself. -/
theorem sha256hex_abc :
    sha256hex (utf8Encode "abc") =
      "ba7816bf8f01cfea414140de5dae2223b00361a396177a9cb410ff61f20015ad" := by
  rfl

/-- A Supabase-authenticated user (whose platform id is a nonempty
string) always resolves to a nonempty external identifier. -/
theorem resolveDiscordId_ne_empty (u : AuthUser) (h : u.id ≠ "") :
    resolveDiscordId u ≠ "" := by
  unfold resolveDiscordId jsOrStr
  rcases u.provider_id with _ | p <;>
    rcases u.sub with _ | q <;>
      rcases u.provider_token with _ | t <;>
        simp_all <;> split_ifs <;> simp_all

/-- The handler body's first use of the undeclared identifier
`discordIdString` throws, so the `catch` answers 500 and the table is
untouched — for any authenticated user with a nonempty platform id. -/
theorem consentAccept_throws (u : AuthUser) (req : AcceptRequest)
    (ms : Int) (db : ConsentDb) (h : u.id ≠ "") :
    consentAcceptPOST (some u) req ms db =
      (RouteResponse.failure 500 "Internal server error", db) := by
  have hd := resolveDiscordId_ne_empty u h
  simp [consentAcceptPOST, consentAcceptBody, jsLookup, acceptRouteScope,
    List.find?, hd]

/-- C1: the claim says a repeated consent acceptance is answered with
success and leaves exactly one row; the shipped handler instead throws a
`ReferenceError` on the undeclared identifier `discordIdString`
(route.ts lines 115/119) before its existing-record check, so every
authenticated submission — first or repeated — is answered by the
`catch` with HTTP 500 `Internal server error` and the `user_consents`
table is never touched. -/
theorem consent_accept_always_500 (u : AuthUser) (req : AcceptRequest)
    (ms : Int) (db : ConsentDb) (h : u.id ≠ "") :
    consentAcceptPOST (some u) req ms db =
      (RouteResponse.failure 500 "Internal server error", db) :=
  consentAccept_throws u req ms db h

/-- C1 witness: a concrete authenticated Discord user, any table state
containing their consent row, a repeated submission: the result is the
500 response and the unchanged table, not the claimed success. -/
theorem consent_accept_always_500_witness :
    consentAcceptPOST
      (some { id := "5e0fb2d0", provider_id := some "123456789", sub := none,
              provider_token := none })
      { userId := "5e0fb2d0", timestamp := "2024-01-01T00:00:00.000Z",
        xForwardedFor := some "1.2.3.4", xRealIp := none }
      1704067200000
      [{ discord_id := "123456789",
         consent_hash := consentHashOf "123456789" "2024-01-01T00:00:00.000Z" "1.2.3.4",
         ip_address := "1.2.3.4", timestamp := 1704067200 }] =
      (RouteResponse.failure 500 "Internal server error",
       [{ discord_id := "123456789",
          consent_hash := consentHashOf "123456789" "2024-01-01T00:00:00.000Z" "1.2.3.4",
          ip_address := "1.2.3.4", timestamp := 1704067200 }]) :=
  consent_accept_always_500 _ _ _ _ (by decide)

/-- C2: every request, by either method and with any path or body,
to the legacy identity-provider stub gets the same response — status 410
with the guidance to use the Supabase OAuth flow — and the handler
performs no database writes (and, being a constant function of the
request, no authentication). -/
theorem legacy_stub_always_410 (m₁ m₂ : HttpMethod) (r₁ r₂ : StubRequest) :
    nextauthHandle m₁ r₁ = nextauthHandle m₂ r₂ ∧
    (nextauthHandle m₁ r₁).1.status = 410 ∧
    (nextauthHandle m₁ r₁).1.message =
      "Legacy NextAuth route disabled. Use Supabase OAuth instead." ∧
    (nextauthHandle m₁ r₁).2 = [] := by
  cases m₁ <;> cases m₂ <;> exact ⟨rfl, rfl, rfl, rfl⟩

set_option maxRecDepth 400000 in
/-- C3: the consent hash is the hex SHA-256 of the exact colon-joined
`discordId:timestamp:ip` string (checked against an independently
computed digest on a concrete triple), two computations on the same
triple agree, and the `timestamp` column of the record the route builds
for insertion is the floor of the epoch milliseconds divided by 1000. -/
theorem consent_hash_spec (did ts ip : String) (ms : Int) :
    consentHashOf did ts ip =
      sha256hex (utf8Encode (did ++ ":" ++ ts ++ ":" ++ ip)) ∧
    (∀ did₂ ts₂ ip₂, did = did₂ → ts = ts₂ → ip = ip₂ →
      consentHashOf did ts ip = consentHashOf did₂ ts₂ ip₂) ∧
    (consentInsertRow did ts ip ms).consent_hash = consentHashOf did ts ip ∧
    (consentInsertRow did ts ip ms).timestamp = ⌊(ms : ℚ) / 1000⌋ ∧
    consentHashOf "123456789" "2024-01-01T00:00:00.000Z" "1.2.3.4" =
      "f75b6b650596bfcdfedb1f1862bb4cb2cc6e77c7fa6f0d0c7a2ea3c77aa4a47b" := by
  refine ⟨rfl, ?_, rfl, ?_, by rfl⟩
  · rintro _ _ _ rfl rfl rfl; rfl
  · show unixTimestampOf ms = _
    unfold unixTimestampOf
    rw [Int.fdiv_eq_ediv ms (by norm_num)]
    have := Rat.floor_intCast_div_natCast ms 1000
    norm_num at this ⊢
    exact_mod_cast this.symm

/-- C3 witness: the determinism conjunct applied at a concrete triple. -/
theorem consent_hash_spec_witness :
    consentHashOf "9" "2024-06-01T12:00:00.000Z" "10.0.0.1" =
      consentHashOf "9" "2024-06-01T12:00:00.000Z" "10.0.0.1" :=
  (consent_hash_spec "9" "2024-06-01T12:00:00.000Z" "10.0.0.1" 0).2.1
    "9" "2024-06-01T12:00:00.000Z" "10.0.0.1" rfl rfl rfl
/-- C4 counterexample: the legacy client does not restore its session
identifier.  Concretely: a first page load (empty storage, one draw
stream), a `saveSettings` round trip, then a second page load with a
different draw stream — the second load's session identifier differs
from the first one, because the constructor always generates afresh and
nothing ever writes a session key to `localStorage`. -/
theorem sophia_session_not_restored :
    (sophiaChatNew
        (sophiaSaveSettings
          (sophiaChatNew (fun _ => none) "http://localhost:8001" (fun _ => 0))
          (fun _ => none) "http://localhost:8001").2
        "http://localhost:8001" (fun _ => 1)).sessionId ≠
      (sophiaChatNew (fun _ => none) "http://localhost:8001"
        (fun _ => 0)).sessionId := by
  decide

/-- C4 as amended: the legacy client generates its session identifier
client-side in the UUID-v4 pattern (36 characters, version nibble `'4'`
at position 14, variant nibble in `8/9/a/b` at position 19), but it does
**not** persist it: the constructor's session identifier is a fresh draw
independent of `localStorage`, and `saveSettings` writes only the
`sophia_api_url` key. -/
theorem sophia_session_uuid_not_persisted (s : Nat → Nat)
    (storage : LocalStorage) (origin : String) :
    (generateSessionId s).length = 36 ∧
    (generateSessionId s).get? 14 = some '4' ∧
    ((generateSessionId s).get? 19 = some '8' ∨
     (generateSessionId s).get? 19 = some '9' ∨
     (generateSessionId s).get? 19 = some 'a' ∨
     (generateSessionId s).get? 19 = some 'b') ∧
    (sophiaChatNew storage origin s).sessionId = generateSessionId s ∧
    (∀ st input k, k ≠ "sophia_api_url" →
      (sophiaSaveSettings st storage input).2 k = storage k) := by
  refine ⟨rfl, rfl, ?_, rfl, ?_⟩
  · have h19 : (generateSessionId s).get? 19 =
        some (hexDigit ((s 15 % 16) % 4 + 8)) := rfl
    rw [h19]
    have hk : s 15 % 16 % 4 < 4 := Nat.mod_lt _ (by norm_num)
    interval_cases h : s 15 % 16 % 4 <;> simp [hexDigit]
  · intro st input k hk
    simp [sophiaSaveSettings, storageSet, hk]

/-- C4 witness: the amended theorem applied at the all-zero draw stream
and empty storage; the untouched key `sophia_api_key` reads back
unchanged after `saveSettings`. -/
theorem sophia_session_uuid_not_persisted_witness :
    (sophiaSaveSettings
        (sophiaChatNew (fun _ => none) "x" (fun _ => 0)) (fun _ => none)
        "http://api").2 "sophia_api_key" = (fun _ => none : LocalStorage) "sophia_api_key" :=
  (sophia_session_uuid_not_persisted (fun _ => 0) (fun _ => none) "x").2.2.2.2
    (sophiaChatNew (fun _ => none) "x" (fun _ => 0)) "http://api"
    "sophia_api_key" (by decide)

/-- C5: on an `audio_url` streaming event whose payload has
`mock_audio: true`, neither the text-chat surface nor the upload-voice
surface schedules autoplay; and autoplay is scheduled exactly when the
payload URL is truthy, `mock_audio` is absent or false, and the URL
matches the `^https?://` pattern — identically on both surfaces. -/
theorem mock_audio_never_autoplays (p : AudioUrlPayload) :
    (p.mock_audio = some true →
      chatAudioUrlAutoplay p = false ∧ voiceAudioUrlAutoplay p = false) ∧
    (chatAudioUrlAutoplay p = true ↔
      (jsTruthyStr p.audio_url = true ∧ jsTruthyBool p.mock_audio = false ∧
       httpUrlTest (p.audio_url.getD "") = true)) ∧
    voiceAudioUrlAutoplay p = chatAudioUrlAutoplay p := by
  refine ⟨?_, ?_, rfl⟩
  · intro hm
    simp [chatAudioUrlAutoplay, voiceAudioUrlAutoplay, hm, jsTruthyBool]
  · cases ha : jsTruthyStr p.audio_url <;>
      cases hm : jsTruthyBool p.mock_audio <;>
        cases hu : httpUrlTest (p.audio_url.getD "") <;>
          simp [chatAudioUrlAutoplay, ha, hm, hu]

/-- C5 witness: a mock payload with a well-formed URL is still not
auto-played on either surface. -/
theorem mock_audio_never_autoplays_witness :
    chatAudioUrlAutoplay ⟨some "https://cdn.example/a.mp3", some true⟩ = false ∧
    voiceAudioUrlAutoplay ⟨some "https://cdn.example/a.mp3", some true⟩ = false :=
  (mock_audio_never_autoplays ⟨some "https://cdn.example/a.mp3", some true⟩).1 rfl

/-- C6: with an authenticated user, the consent modal always unlocks the
UI: on an OK response `onAccept` runs immediately, and on a non-OK
response or a thrown network error it is scheduled after the 3000 ms
timeout, so a failing consent-accept backend never hard-locks the user
out. -/
theorem consent_modal_soft_allows (u : AuthUser) (o : FetchOutcome) :
    (handleAccept (some u) FetchOutcome.ok).onAcceptDelayMs = some 0 ∧
    (o ≠ FetchOutcome.ok →
      (handleAccept (some u) o).onAcceptDelayMs = some 3000) := by
  refine ⟨rfl, ?_⟩
  intro ho
  cases o with
  | ok => exact absurd rfl ho
  | httpError s => rfl
  | thrown => rfl

/-- C6 witness: a thrown network error still unlocks after 3000 ms. -/
theorem consent_modal_soft_allows_witness :
    (handleAccept
        (some { id := "u", provider_id := none, sub := none, provider_token := none })
        FetchOutcome.thrown).onAcceptDelayMs = some 3000 :=
  (consent_modal_soft_allows
    { id := "u", provider_id := none, sub := none, provider_token := none }
    FetchOutcome.thrown).2 (by decide)
/-- One player step preserves "clips started so far plus clips still
queued equals clips enqueued so far, in order". -/
theorem playerStep_inv (st : PlayerState) (e : PlayerEvent) :
    (playerStep st e).2.toList ++ (playerStep st e).1.queue =
      st.queue ++ enqueuedOf [e] := by
  cases e <;>
    simp only [playerStep, playNextInQueue, enqueuedOf, List.filterMap] <;>
      cases hp : st.playing <;> simp <;>
        rcases hq : st.queue with _ | ⟨u, rest⟩ <;> simp_all

/-- Running any event sequence: the started clips followed by the
residual queue are exactly the enqueued clips, in order. -/
theorem playerRun_inv (evs : List PlayerEvent) (st : PlayerState) :
    (playerRun st evs).2 ++ (playerRun st evs).1.queue =
      st.queue ++ enqueuedOf evs := by
  induction evs generalizing st with
  | nil => simp [playerRun, enqueuedOf]
  | cons e es ih =>
    have hstep := playerStep_inv st e
    have hrest := ih (playerStep st e).1
    have hsplit : enqueuedOf (e :: es) = enqueuedOf [e] ++ enqueuedOf es := by
      cases e <;> simp [enqueuedOf]
    simp only [playerRun, List.append_assoc]
    rw [hsplit, hrest, ← List.append_assoc, hstep, List.append_assoc]

/-- C7: the live-call playback queue is strictly FIFO with at most one
clip playing: from the initial state, the clips whose playback has
started, followed by the clips still queued, are exactly the enqueued
clips in enqueue order (so starts are a prefix of the enqueue order);
while a clip is playing an enqueue starts nothing and leaves the busy
flag set (only the `ended`/`error`/`play()`-failure handlers clear it);
and an enqueue can start a clip only from an idle player. -/
theorem playback_queue_fifo (evs : List PlayerEvent) (st : PlayerState) (u : String) :
    (playerRun playerInit evs).2 ++ (playerRun playerInit evs).1.queue =
      enqueuedOf evs ∧
    (playerRun playerInit evs).2 <+: enqueuedOf evs ∧
    (st.playing = true →
      (playerStep st (PlayerEvent.enqueue u)).2 = none ∧
      (playerStep st (PlayerEvent.enqueue u)).1.playing = true) ∧
    ((playerStep st (PlayerEvent.enqueue u)).2.isSome → st.playing = false) := by
  have hrun := playerRun_inv evs playerInit
  simp only [playerInit, List.nil_append] at hrun
  refine ⟨hrun, ⟨_, hrun⟩, ?_, ?_⟩
  · intro hp
    simp [playerStep, playNextInQueue, hp]
  · intro hs
    by_contra hp
    simp only [Bool.not_eq_false] at hp
    simp [playerStep, playNextInQueue, hp] at hs

/-- C7 witness: three clips enqueued while the first is still playing
start in exactly their enqueue order once playback completions arrive;
and an enqueue during playback starts nothing. -/
theorem playback_queue_fifo_witness :
    (playerRun playerInit
        [PlayerEvent.enqueue "a", PlayerEvent.enqueue "b", PlayerEvent.enqueue "c",
         PlayerEvent.ended, PlayerEvent.ended]).2 ++
      (playerRun playerInit
        [PlayerEvent.enqueue "a", PlayerEvent.enqueue "b", PlayerEvent.enqueue "c",
         PlayerEvent.ended, PlayerEvent.ended]).1.queue =
      ["a", "b", "c"] ∧
    (playerStep { queue := ["b"], playing := true }
        (PlayerEvent.enqueue "c")).2 = none :=
  ⟨(playback_queue_fifo
      [PlayerEvent.enqueue "a", PlayerEvent.enqueue "b", PlayerEvent.enqueue "c",
       PlayerEvent.ended, PlayerEvent.ended]
      { queue := ["b"], playing := true } "c").1,
   ((playback_queue_fifo
      [PlayerEvent.enqueue "a", PlayerEvent.enqueue "b", PlayerEvent.enqueue "c",
       PlayerEvent.ended, PlayerEvent.ended]
      { queue := ["b"], playing := true } "c").2.2.1 rfl).1⟩

/-- C9: a message sent from the Next.js text-chat surface carries a
`session_id` freshly drawn from the random generator at send time (the
second of the send's three `generateSessionId()` calls, draws 31-61);
the id does not depend on the component state, so no stable session key
exists for this surface; and two sends whose draw streams differ can
carry different session ids. -/
theorem text_chat_fresh_session_id (st₁ st₂ : ChatState) (s : Nat → Nat)
    (r₁ r₂ : TextChatRequest) (t₁ t₂ : ChatState) :
    (sendTextMessage st₁ s = some (r₁, t₁) →
      r₁.session_id = generateSessionIdAt s 31) ∧
    (sendTextMessage st₁ s = some (r₁, t₁) →
      sendTextMessage st₂ s = some (r₂, t₂) →
        r₁.session_id = r₂.session_id) ∧
    generateSessionIdAt (fun _ => 0) 31 ≠ generateSessionIdAt (fun _ => 1) 31 := by
  have key : ∀ st r t, sendTextMessage st s = some (r, t) →
      r.session_id = generateSessionIdAt s 31 := by
    intro st r t h
    unfold sendTextMessage at h
    split at h
    · exact absurd h (by simp)
    · simp only [Option.some_inj, Prod.mk.injEq] at h
      rw [← h.1]
  refine ⟨key st₁ r₁ t₁, ?_, by decide⟩
  intro h₁ h₂
  rw [key st₁ r₁ t₁ h₁, key st₂ r₂ t₂ h₂]

/-- C9 witness: the theorem applied to a concrete send. -/
theorem text_chat_fresh_session_id_witness :
    ({ message := "hi", session_id := generateSessionIdAt (fun _ => 0) 31 } :
        TextChatRequest).session_id = generateSessionIdAt (fun _ => 0) 31 :=
  (text_chat_fresh_session_id ⟨"hi", false, []⟩ ⟨"hi", false, []⟩ (fun _ => 0)
      { message := "hi", session_id := generateSessionIdAt (fun _ => 0) 31 }
      { message := "hi", session_id := generateSessionIdAt (fun _ => 0) 31 }
      ⟨"", true, [⟨generateSessionIdAt (fun _ => 0) 0, true, "hi"⟩,
                  ⟨generateSessionIdAt (fun _ => 0) 62, false, ""⟩]⟩
      ⟨"", true, [⟨generateSessionIdAt (fun _ => 0) 0, true, "hi"⟩,
                  ⟨generateSessionIdAt (fun _ => 0) 62, false, ""⟩]⟩).1 (by decide)

/-- C10: the consent route's external-identity resolution falls back to
the authenticated Supabase user id, so for any authenticated user (whose
id is a nonempty string) the resolved identity is truthy, the
`Discord ID not found` 404 branch is never taken, and for a user with
none of the Discord metadata fields the record the route builds for
insertion is keyed by the platform user id — a non-Discord identifier. -/
theorem discord_id_404_unreachable (u : AuthUser) (req : AcceptRequest)
    (ms : Int) (db : ConsentDb) (h : u.id ≠ "") :
    resolveDiscordId u ≠ "" ∧
    (∀ e, (consentAcceptPOST (some u) req ms db).1 ≠
      RouteResponse.failure 404 e) ∧
    (u.provider_id = none → u.sub = none → u.provider_token = none →
      (consentInsertRow (resolveDiscordId u) req.timestamp
        (clientIp req.xForwardedFor req.xRealIp) ms).discord_id = u.id) := by
  refine ⟨resolveDiscordId_ne_empty u h, ?_, ?_⟩
  · intro e
    rw [consentAccept_throws u req ms db h]
    simp
  · intro h₁ h₂ h₃
    simp [consentInsertRow, resolveDiscordId, jsOrStr, h₁, h₂, h₃]

/-- C10 witness: a user with no Discord metadata at all still resolves
to a truthy identity (their platform id). -/
theorem discord_id_404_unreachable_witness :
    resolveDiscordId
      { id := "5e0fb2d0", provider_id := none, sub := none,
        provider_token := none } ≠ "" :=
  (discord_id_404_unreachable
    { id := "5e0fb2d0", provider_id := none, sub := none, provider_token := none }
    { userId := "5e0fb2d0", timestamp := "2024-01-01T00:00:00.000Z",
      xForwardedFor := none, xRealIp := none }
    0 [] (by decide)).1
/-- `ratFloor` is the floor. -/
theorem ratFloor_eq (q : ℚ) : ratFloor q = ⌊q⌋ := (Rat.floor_def).symm

/-- `ratCeil` is the ceiling. -/
theorem ratCeil_eq (q : ℚ) : ratCeil q = ⌈q⌉ := by
  rw [ratCeil, ratFloor_eq, ← Int.ceil_neg, neg_neg]

/-- Truncation toward zero is floor on nonnegatives, ceiling on
negatives. -/
theorem truncQ_eq (q : ℚ) : truncQ q = if 0 ≤ q then ⌊q⌋ else ⌈q⌉ := by
  rw [truncQ]
  split_ifs with h
  · exact ratFloor_eq q
  · exact ratCeil_eq q

/-- The 16-bit two's-complement wrap is the identity on in-range
values. -/
theorem toInt16_id {t : ℤ} (h1 : -32768 ≤ t) (h2 : t ≤ 32767) :
    (t + 32768) % 65536 - 32768 = t := by omega

/-- Every PCM16-encoded sample lies in `[-32768, 32767]`: negatives are
clamped to `-1` and scaled by `0x8000`, non-negatives clamped to `1` and
scaled by `0x7fff`, so truncation stays in range and the 16-bit wrap is
the identity. -/
theorem encodeSample_bounds (s : ℚ) :
    -32768 ≤ encodeSample s ∧ encodeSample s ≤ 32767 := by
  have hc1 : (-1 : ℚ) ≤ clampUnit s := le_max_left _ _
  have hc2 : clampUnit s ≤ 1 := max_le (by norm_num) (min_le_left _ _)
  rcases lt_or_le (clampUnit s) 0 with hneg | hpos
  · have hq : scalePCM s = clampUnit s * 32768 := by
      rw [scalePCM, if_pos hneg]
    have hqneg : scalePCM s < 0 := by rw [hq]; nlinarith
    have ht : truncQ (scalePCM s) = ⌈scalePCM s⌉ := by
      rw [truncQ_eq, if_neg (not_le.mpr hqneg)]
    have hlo : (-32768 : ℚ) ≤ scalePCM s := by rw [hq]; nlinarith
    have h1 : (-32768 : ℤ) ≤ ⌈scalePCM s⌉ := by
      simpa using Int.ceil_mono hlo
    have h2 : ⌈scalePCM s⌉ ≤ 0 := by
      simpa using Int.ceil_mono hqneg.le
    rw [encodeSample, toInt16, ht, toInt16_id h1 (by omega)]
    exact ⟨h1, by omega⟩
  · have hq : scalePCM s = clampUnit s * 32767 := by
      rw [scalePCM, if_neg (not_lt.mpr hpos)]
    have hqnn : (0 : ℚ) ≤ scalePCM s := by rw [hq]; nlinarith
    have ht : truncQ (scalePCM s) = ⌊scalePCM s⌋ := by
      rw [truncQ_eq, if_pos hqnn]
    have hhi : scalePCM s ≤ 32767 := by rw [hq]; nlinarith
    have h1 : (0 : ℤ) ≤ ⌊scalePCM s⌋ := by
      simpa using Int.floor_mono hqnn
    have h2 : ⌊scalePCM s⌋ ≤ 32767 := by
      simpa using Int.floor_mono hhi
    rw [encodeSample, toInt16, ht, toInt16_id (by omega) h2]
    exact ⟨by omega, h2⟩

/-- For a true downsampling rate, each output position's window starts
inside the input. -/
theorem windowStart_lt_len {len rate pos : ℕ} (hr : 16000 < rate)
    (hpos : pos < len * 16000 / rate) : windowStart rate pos < len := by
  have h1 : (pos + 1) * rate ≤ (len * 16000 / rate) * rate :=
    Nat.mul_le_mul_right rate hpos
  have h2 : (len * 16000 / rate) * rate ≤ len * 16000 := Nat.div_mul_le_self _ _
  have h3 : pos * rate < len * 16000 := by nlinarith
  rw [windowStart, Nat.div_lt_iff_lt_mul (by norm_num)]
  omega

/-- For a true downsampling rate, consecutive window starts are
strictly increasing. -/
theorem windowStart_lt_next {rate : ℕ} (hr : 16000 < rate) (pos : ℕ) :
    windowStart rate pos < windowStart rate (pos + 1) := by
  rw [windowStart, windowStart]
  have h1 : pos * rate + 16000 ≤ (pos + 1) * rate := by nlinarith
  have h2 : (pos * rate + 16000) / 16000 ≤ (pos + 1) * rate / 16000 :=
    Nat.div_le_div_right h1
  rw [Nat.add_div_right _ (by norm_num)] at h2
  omega

/-- Length of a source window. -/
theorem sourceWindow_length (input : List ℚ) (rate pos : ℕ) :
    (sourceWindow input rate pos).length =
      min (min (windowStart rate (pos + 1)) input.length - windowStart rate pos)
        (input.length - windowStart rate pos) := by
  rw [sourceWindow, List.length_take, List.length_drop]

/-- For a true downsampling rate, every output position's source window
is nonempty. -/
theorem sourceWindow_ne_nil {input : List ℚ} {rate pos : ℕ} (hr : 16000 < rate)
    (hpos : pos < input.length * 16000 / rate) :
    sourceWindow input rate pos ≠ [] := by
  have h1 := windowStart_lt_len hr hpos
  have h2 := windowStart_lt_next hr pos
  have h3 : 0 < (sourceWindow input rate pos).length := by
    rw [sourceWindow_length]; omega
  exact List.ne_nil_of_length_pos h3

/-- In the resampling branch, output position `pos` is the encoded
`sum / (count || 1)` of its source window. -/
theorem downsample_get? {input : List ℚ} {rate : ℕ} (hne : rate ≠ 16000)
    {pos : ℕ} (hpos : pos < input.length * 16000 / rate) :
    (downsampleTo16kPCM input rate).get? pos =
      some (encodeSample (meanOrZero (sourceWindow input rate pos))) := by
  rw [downsampleTo16kPCM, if_neg hne]
  rw [List.get?_map, List.get?_range hpos]
  rfl

/-- In the resampling branch, the output length is the claim's
`floor(inputLength / (inputSampleRate / 16000))`. -/
theorem downsample_length_floor (input : List ℚ) {rate : ℕ} (h : rate ≠ 16000) :
    ((downsampleTo16kPCM input rate).length : ℤ) =
      ⌊(input.length : ℚ) / ((rate : ℚ) / 16000)⌋ := by
  rw [downsampleTo16kPCM, if_neg h, List.length_map, List.length_range]
  rcases Nat.eq_zero_or_pos rate with h0 | hpos
  · subst h0; norm_num
  · have hcast : (input.length : ℚ) / ((rate : ℚ) / 16000) =
        ((input.length * 16000 : ℕ) : ℚ) / ((rate : ℕ) : ℚ) := by
      push_cast
      field_simp
    rw [hcast, Rat.floor_natCast_div_natCast]
    exact (Int.natCast_div (input.length * 16000) rate).symm
/-- C8 counterexample: at input sample rate 8000 (below the 16 kHz
target, which the claim's "every input sample rate" includes) the first
output position's source window is empty, so that sample is not the
arithmetic mean of its window — `count || 1` silently turns it into `0`.
Concretely, the single input sample `1` yields the two output samples
`[0, 32767]`. -/
theorem downsample_mean_claim_fails_at_8000 :
    ¬ downsampleMeanClaim [1] 8000 ∧
    downsampleTo16kPCM [1] 8000 = [0, 32767] := by
  constructor
  · intro h
    have h0 := h (by norm_num) 0 (by norm_num)
    exact h0.1 rfl
  · rw [downsampleTo16kPCM, if_neg (by norm_num)]
    have h2 : ([(1 : ℚ)].length * 16000 / 8000) = 2 := by norm_num
    rw [h2]
    simp only [List.range_succ, List.range_zero, List.map_append,
      List.map_cons, List.map_nil, List.nil_append]
    have hw0 : sourceWindow [1] 8000 0 = [] := rfl
    have hw1 : sourceWindow [1] 8000 1 = [1] := rfl
    rw [hw0, hw1]
    have hm0 : meanOrZero ([] : List ℚ) = 0 := by simp [meanOrZero]
    have hm1 : meanOrZero [(1 : ℚ)] = 1 := by simp [meanOrZero]
    rw [hm0, hm1]
    have he0 : encodeSample 0 = 0 := by
      rw [encodeSample, scalePCM, clampUnit]
      norm_num
      rw [toInt16, truncQ_eq]
      norm_num
    have he1 : encodeSample 1 = 32767 := by
      rw [encodeSample, scalePCM, clampUnit]
      norm_num
      rw [toInt16, truncQ_eq]
      norm_num
    rw [he0, he1]
    rfl

/-- C8 as amended: every output sample of `downsampleTo16kPCM` lies in
`[-32768, 32767]` (clamping to `[-1, 1]`, scaling negatives by `0x8000`
and non-negatives by `0x7fff`); at input rate 16000 the output is one
encoded sample per input sample; at any other rate the output length is
`floor(inputLength / (inputSampleRate / 16000))`; and whenever the input
rate is **above** 16000 — true downsampling — every output sample is
the PCM16 encoding of the arithmetic mean of its nonempty source window
(for rates below 16000 the claim fails, see the counterexample). -/
theorem downsample_pcm_spec (input : List ℚ) (rate : ℕ) :
    (∀ x ∈ downsampleTo16kPCM input rate, -32768 ≤ x ∧ x ≤ 32767) ∧
    (rate = 16000 →
      (downsampleTo16kPCM input rate).length = input.length ∧
      ∀ i, (downsampleTo16kPCM input rate).get? i =
        (input.get? i).map encodeSample) ∧
    (rate ≠ 16000 →
      ((downsampleTo16kPCM input rate).length : ℤ) =
        ⌊(input.length : ℚ) / ((rate : ℚ) / 16000)⌋) ∧
    (16000 < rate → ∀ pos, pos < input.length * 16000 / rate →
      sourceWindow input rate pos ≠ [] ∧
      (downsampleTo16kPCM input rate).get? pos =
        some (encodeSample ((sourceWindow input rate pos).sum /
          ((sourceWindow input rate pos).length : ℚ)))) := by
  refine ⟨?_, ?_, fun h => downsample_length_floor input h, ?_⟩
  · intro x hx
    rw [downsampleTo16kPCM] at hx
    split_ifs at hx
    · obtain ⟨a, _, rfl⟩ := List.mem_map.mp hx
      exact encodeSample_bounds a
    · obtain ⟨a, _, rfl⟩ := List.mem_map.mp hx
      exact encodeSample_bounds _
  · intro h
    rw [downsampleTo16kPCM, if_pos h]
    exact ⟨List.length_map _ _, fun i => List.get?_map _ _ _⟩
  · intro hr pos hpos
    have hw := sourceWindow_ne_nil hr hpos
    refine ⟨hw, ?_⟩
    rw [downsample_get? (by omega) hpos]
    have hlen : (sourceWindow input rate pos).length ≠ 0 :=
      fun hz => hw (List.length_eq_zero.mp hz)
    rw [meanOrZero, if_neg hlen]

/-- C8 witness: the amended theorem at input `[1, -1]` and rate 32000
(3:1 would be 48000; 2:1 here): position 0 has the nonempty window and
carries the encoded window mean. -/
theorem downsample_pcm_spec_witness :
    sourceWindow [1, -1] 32000 0 ≠ [] ∧
    (downsampleTo16kPCM [1, -1] 32000).get? 0 =
      some (encodeSample ((sourceWindow [1, -1] 32000 0).sum /
        ((sourceWindow [1, -1] 32000 0).length : ℚ))) :=
  (downsample_pcm_spec [1, -1] 32000).2.2.2 (by norm_num) 0 (by norm_num)
